import Mathlib

/-!
Verification development for the geological model comparison dashboard
(`BM_Validation1.py`).  The file shallowly embeds the program's logical
core — the statistics calculator, the column-guess heuristic, the
per-field percentage deltas and their sign classification, the 3D
sampling step, and the CSV comparison report — and proves or refutes
the specification's claims about them.

Modelling conventions:
* a raw table cell is represented by its behaviour under
  `pd.to_numeric(errors='coerce')`: `Cell.num q` stands for any raw
  value (number or numeric text) that coerces to the rational `q`,
  `Cell.nonNum s` for raw text that fails to coerce, and `Cell.nan`
  for a missing value / the result of a failed coercion;
* a dataframe is an ordered association list from column names to
  column contents;
* floating-point results that can be infinite or undefined are
  modelled by `FVal`, an extended-real value domain with IEEE-754
  style propagation of `nan` and infinities (rounding is immaterial
  to the claims, so finite values are exact reals).
-/

/-- Behaviour class of a raw cell under numeric coercion. -/
inductive Cell where
  | num : ℚ → Cell
  | nonNum : String → Cell
  | nan : Cell
deriving DecidableEq

/-- `pd.to_numeric(errors='coerce')` on a single cell: numbers (and
numeric text, represented by `Cell.num`) keep their value, anything
else becomes a missing value. -/
def toNumericCell : Cell → Cell
  | .num q => .num q
  | .nonNum _ => .nan
  | .nan => .nan

/-- A dataframe: ordered columns, each a name with its cells. -/
structure DataFrame where
  cols : List (String × List Cell)
deriving DecidableEq

/-- The dataframe's column names, in order (`df.columns`). -/
def DataFrame.columns (df : DataFrame) : List String :=
  df.cols.map Prod.fst

/-- Look up a column's cells by name (first match). -/
def DataFrame.getCol (df : DataFrame) (name : String) : Option (List Cell) :=
  (df.cols.find? (fun nv => nv.1 = name)).map Prod.snd

/-- Column lookup with `[]` as default for an absent column. -/
def DataFrame.getColD (df : DataFrame) (name : String) : List Cell :=
  (df.getCol name).getD []

/-- Replace the contents of the column called `name`. -/
def DataFrame.setCol (df : DataFrame) (name : String) (vals : List Cell) : DataFrame :=
  ⟨df.cols.map (fun nv => if nv.1 = name then (nv.1, vals) else nv)⟩

/-- The in-place mutation `df[grade_column] = pd.to_numeric(df[grade_column],
errors='coerce')` performed by `calculate_statistics`. -/
def coerceGrade (df : DataFrame) (grade_column : String) : DataFrame :=
  df.setCol grade_column ((df.getColD grade_column).map toNumericCell)

/-- The numeric (non-missing) values of a column, in order; pandas
aggregations (`mean`, `min`, `max`, `std`) skip missing values. -/
def colNums (cells : List Cell) : List ℚ :=
  cells.filterMap (fun c => match c with | .num q => some q | _ => none)

/-- Python's case-sensitive substring test `needle in hay` on character
lists: does `n` start `h`? -/
def startsWithChars : List Char → List Char → Bool
  | [], _ => true
  | _ :: _, [] => false
  | a :: as, b :: bs => a = b && startsWithChars as bs

/-- Does `n` occur as a contiguous run inside `h`? -/
def containsSubChars : List Char → List Char → Bool
  | n, [] => n.isEmpty
  | n, c :: t => startsWithChars n (c :: t) || containsSubChars n t

/-- Python's `needle in hay` for strings (case-sensitive substring
containment). -/
def containsSubstr (needle hay : String) : Bool :=
  containsSubChars needle.data hay.data

/-- `Series.mean()` over the non-missing values: arithmetic mean, or
missing (`None`, modelling NaN) when there are no values. -/
def listMean (l : List ℚ) : Option ℚ :=
  if l = [] then none else some (l.sum / l.length)

/-- `Series.std()` squared: the sample variance with denominator `n − 1`
(pandas default `ddof=1`); missing when fewer than two values. -/
def sampleVarQ (l : List ℚ) : Option ℚ :=
  if 2 ≤ l.length then
    some ((l.map (fun x => (x - l.sum / l.length) ^ 2)).sum / ((l.length : ℚ) - 1))
  else none

/-- The statistics record built by `calculate_statistics`.  Aggregates
over the grade column are `Option`-valued: `none` models a NaN result
(empty column for `mean`/`min`/`max`, fewer than two values for the
standard deviation). -/
structure Stats where
  volume : ℚ
  tonnage : ℚ
  densite : ℚ
  teneur_moyenne : Option ℚ
  teneur_min : Option ℚ
  teneur_max : Option ℚ
  ecart_type : Option ℝ
  metal_contenu : Option ℚ
  recuperation : ℚ
  metal_recuperable : Option ℚ

/-- Shallow embedding of `calculate_statistics(df, grade_column)`:
returns `none` when the dataframe is absent or the grade column is not
among its columns; otherwise coerces the grade column to numeric in
place and builds the record of placeholder constants (selected by
whether the column name contains `"composite"`) and grade aggregates. -/
noncomputable def calculate_statistics (df : Option DataFrame) (grade_column : String) :
    Option Stats :=
  match df with
  | none => none
  | some df =>
    if grade_column ∈ df.columns then
      let dfc := coerceGrade df grade_column
      let nums := colNums (dfc.getColD grade_column)
      some {
        volume := if containsSubstr "composite" grade_column then 1250000 else 1275000
        tonnage := if containsSubstr "composite" grade_column then 3375000 else 3442500
        densite := 27 / 10
        teneur_moyenne := listMean nums
        teneur_min := nums.min?
        teneur_max := nums.max?
        ecart_type := (sampleVarQ nums).map Real.sqrt
        metal_contenu :=
          if containsSubstr "composite" grade_column then
            (listMean nums).map (fun m => 3375000 * m / 1000)
          else
            (listMean nums).map (fun m => 3442500 * m / 1000)
        recuperation := if containsSubstr "composite" grade_column then 925 / 10 else 91
        metal_recuperable :=
          ((if containsSubstr "composite" grade_column then
              (listMean nums).map (fun m => 3375000 * m / 1000)
            else
              (listMean nums).map (fun m => 3442500 * m / 1000)).map
            (fun mc => mc * (if containsSubstr "composite" grade_column then 925 / 10 else 91) / 100))
      }
    else none

/-- The four semantic roles the column-guess heuristic serves. -/
inductive Role where
  | x | y | z | grade
deriving DecidableEq

/-- The keywords tried for each role, as in the `next(...)` generator
expressions of the import page. -/
def roleKeywords : Role → List String
  | .x => ["x", "east"]
  | .y => ["y", "north"]
  | .z => ["z", "elev"]
  | .grade => ["grade", "teneur", "au", "cu"]

/-- Python's `str.lower()`: lowercase character by character. -/
def lowerString (s : String) : String :=
  ⟨s.data.map Char.toLower⟩

/-- Does the lowercased column name contain one of the role's keywords? -/
def matchesRole (r : Role) (col : String) : Bool :=
  (roleKeywords r).any (fun k => containsSubstr k (lowerString col))

/-- The column-guess heuristic
`next((col for col in columns if <keyword test>), columns[0])`:
`none` models the `IndexError` Python raises on an empty column list
(the default `columns[0]` is evaluated eagerly); otherwise the first
matching column, falling back to the first column. -/
def guessColumn (r : Role) (columns : List String) : Option String :=
  match columns with
  | [] => none
  | c :: t => some (((c :: t).find? (matchesRole r)).getD c)

/-- An IEEE-754 style extended value: a finite value, an infinity, or
the undefined `nan`. -/
inductive FVal where
  | fin : ℝ → FVal
  | inf : FVal
  | neginf : FVal
  | nan : FVal

open Classical in
/-- Float division on `FVal`: `nan` propagates; a zero divisor gives
`nan` for a zero dividend and a signed infinity otherwise (numpy float
semantics — a warning, never an exception). -/
noncomputable def fdiv : FVal → FVal → FVal
  | .nan, _ => .nan
  | _, .nan => .nan
  | .fin x, .fin y =>
      if y = 0 then (if x = 0 then .nan else if 0 < x then .inf else .neginf)
      else .fin (x / y)
  | .inf, .fin y => if 0 ≤ y then .inf else .neginf
  | .neginf, .fin y => if 0 ≤ y then .neginf else .inf
  | .fin _, .inf => .fin 0
  | .fin _, .neginf => .fin 0
  | .inf, .inf => .nan
  | .inf, .neginf => .nan
  | .neginf, .inf => .nan
  | .neginf, .neginf => .nan

/-- Float subtraction on `FVal`. -/
noncomputable def fsub : FVal → FVal → FVal
  | .nan, _ => .nan
  | _, .nan => .nan
  | .fin x, .fin y => .fin (x - y)
  | .inf, .fin _ => .inf
  | .neginf, .fin _ => .neginf
  | .fin _, .inf => .neginf
  | .fin _, .neginf => .inf
  | .inf, .inf => .nan
  | .inf, .neginf => .inf
  | .neginf, .inf => .neginf
  | .neginf, .neginf => .nan

open Classical in
/-- Float multiplication on `FVal`. -/
noncomputable def fmul : FVal → FVal → FVal
  | .nan, _ => .nan
  | _, .nan => .nan
  | .fin x, .fin y => .fin (x * y)
  | .inf, .fin y => if y = 0 then .nan else if 0 < y then .inf else .neginf
  | .fin x, .inf => if x = 0 then .nan else if 0 < x then .inf else .neginf
  | .neginf, .fin y => if y = 0 then .nan else if 0 < y then .neginf else .inf
  | .fin x, .neginf => if x = 0 then .nan else if 0 < x then .neginf else .inf
  | .inf, .inf => .inf
  | .inf, .neginf => .neginf
  | .neginf, .inf => .neginf
  | .neginf, .neginf => .inf

/-- The percentage-difference formula
`(second / first - 1) * 100` shared by all ten `*_diff` assignments. -/
noncomputable def deltaPct (first second : FVal) : FVal :=
  fmul (fsub (fdiv second first) (.fin 1)) (.fin 100)

/-- The ten numeric fields of a statistics record. -/
inductive StatField where
  | volume | tonnage | densite
  | teneur_moyenne | teneur_min | teneur_max | ecart_type
  | metal_contenu | recuperation | metal_recuperable
deriving DecidableEq

/-- Read one field of a record as a float value (`none` aggregates are
NaN at runtime). -/
noncomputable def getField (s : Stats) : StatField → FVal
  | .volume => .fin s.volume
  | .tonnage => .fin s.tonnage
  | .densite => .fin s.densite
  | .teneur_moyenne => match s.teneur_moyenne with | some q => .fin q | none => .nan
  | .teneur_min => match s.teneur_min with | some q => .fin q | none => .nan
  | .teneur_max => match s.teneur_max with | some q => .fin q | none => .nan
  | .ecart_type => match s.ecart_type with | some r => .fin r | none => .nan
  | .metal_contenu => match s.metal_contenu with | some q => .fin q | none => .nan
  | .recuperation => .fin s.recuperation
  | .metal_recuperable => match s.metal_recuperable with | some q => .fin q | none => .nan

/-- The per-field comparison delta
`(block_stats[f] / composite_stats[f] - 1) * 100`. -/
noncomputable def deltaField (f : StatField) (composite_stats block_stats : Stats) : FVal :=
  deltaPct (getField composite_stats f) (getField block_stats f)

/-- Python's `diff > 0` on a float value: false on `nan`. -/
def fgtZero : FVal → Prop
  | .fin x => 0 < x
  | .inf => True
  | .neginf => False
  | .nan => False

/-- Python's `diff < 0` on a float value: false on `nan`. -/
def fltZero : FVal → Prop
  | .fin x => x < 0
  | .inf => False
  | .neginf => True
  | .nan => False

open Classical in
/-- The CSS class chosen for a delta by `get_diff_class`. -/
noncomputable def get_diff_class (diff : FVal) : String :=
  if fgtZero diff then "positive"
  else if fltZero diff then "negative"
  else "neutral"

/-- The rows picked by `DataFrame.sample`: pandas draws a list of
distinct valid row indices at random and returns those rows; the index
choice is made a parameter so the random source is injectable. -/
def sampleRows {α : Type} (rows : List α) (idxs : List ℕ) : List α :=
  idxs.filterMap (fun i => rows[i]?)

/-- The sampling step of `create_3d_scatter`:
`sample_size = min(N, len(df))` followed by
`df.sample(sample_size) if len(df) > sample_size else df` (the source
instantiates the bound `N` with 5000 at line 195 and 3000 at line 626). -/
def create_3d_sample {α : Type} (N : ℕ) (rows : List α) (idxs : List ℕ) : List α :=
  let sample_size := min N rows.length
  if sample_size < rows.length then sampleRows rows idxs else rows

open Classical in
/-- Round a real to the nearest integer, ties to the even integer —
the rounding used by Python's fixed-point float formatting. -/
noncomputable def roundHalfEven (x : ℝ) : ℤ :=
  if Int.fract x < 1 / 2 then ⌊x⌋
  else if 1 / 2 < Int.fract x then ⌊x⌋ + 1
  else if Even ⌊x⌋ then ⌊x⌋ else ⌊x⌋ + 1

/-- Left-pad a digit string with zeros to the given width. -/
def padZeros (width : ℕ) (s : String) : String :=
  String.mk (List.replicate (width - s.length) '0') ++ s

/-- Python's `"{:.<prec>f}".format(x)` for a nonnegative real. -/
noncomputable def fmtFixedNN (prec : ℕ) (x : ℝ) : String :=
  let n := roundHalfEven (x * 10 ^ prec)
  if prec = 0 then toString n
  else toString (n / (10 : ℤ) ^ prec) ++ "." ++ padZeros prec (toString (n % (10 : ℤ) ^ prec).toNat)

open Classical in
/-- Python's `"{:.<prec>f}".format(x)` for a finite real. -/
noncomputable def fmtFixed (prec : ℕ) (x : ℝ) : String :=
  if x < 0 then "-" ++ fmtFixedNN prec (-x) else fmtFixedNN prec x

/-- Fixed-point formatting of a float value; Python renders the
non-finite floats as `nan`, `inf` and `-inf`. -/
noncomputable def fmtFVal (prec : ℕ) : FVal → String
  | .fin x => fmtFixed prec x
  | .inf => "inf"
  | .neginf => "-inf"
  | .nan => "nan"

/-- One metric row of the comparison report:
`f"{label},{composite value},{block value},{diff}\n"` without the
terminating newline. -/
def rowLine (label a b d : String) : String :=
  label ++ "," ++ a ++ "," ++ b ++ "," ++ d

/-- The lines written into `csv_buffer` by the report generator: the
header row followed by the ten metric rows, in source order. -/
noncomputable def comparisonReportLines (cs bs : Stats) : List String :=
  ["Métrique,Composite 3D,Bloc Modèle,Différence (%)",
   rowLine "Volume total (m³)" (fmtFVal 1 (getField cs .volume))
     (fmtFVal 1 (getField bs .volume)) (fmtFVal 1 (deltaField .volume cs bs)),
   rowLine "Tonnage estimé (tonnes)" (fmtFVal 1 (getField cs .tonnage))
     (fmtFVal 1 (getField bs .tonnage)) (fmtFVal 1 (deltaField .tonnage cs bs)),
   rowLine "Densité moyenne (t/m³)" (fmtFVal 2 (getField cs .densite))
     (fmtFVal 2 (getField bs .densite)) (fmtFVal 1 (deltaField .densite cs bs)),
   rowLine "Teneur moyenne (g/t)" (fmtFVal 2 (getField cs .teneur_moyenne))
     (fmtFVal 2 (getField bs .teneur_moyenne)) (fmtFVal 1 (deltaField .teneur_moyenne cs bs)),
   rowLine "Teneur minimum (g/t)" (fmtFVal 2 (getField cs .teneur_min))
     (fmtFVal 2 (getField bs .teneur_min)) (fmtFVal 1 (deltaField .teneur_min cs bs)),
   rowLine "Teneur maximum (g/t)" (fmtFVal 2 (getField cs .teneur_max))
     (fmtFVal 2 (getField bs .teneur_max)) (fmtFVal 1 (deltaField .teneur_max cs bs)),
   rowLine "Écart-type (g/t)" (fmtFVal 2 (getField cs .ecart_type))
     (fmtFVal 2 (getField bs .ecart_type)) (fmtFVal 1 (deltaField .ecart_type cs bs)),
   rowLine "Métal contenu (kg)" (fmtFVal 1 (getField cs .metal_contenu))
     (fmtFVal 1 (getField bs .metal_contenu)) (fmtFVal 1 (deltaField .metal_contenu cs bs)),
   rowLine "Récupération estimée (%)" (fmtFVal 1 (getField cs .recuperation))
     (fmtFVal 1 (getField bs .recuperation)) (fmtFVal 1 (deltaField .recuperation cs bs)),
   rowLine "Métal récupérable (kg)" (fmtFVal 1 (getField cs .metal_recuperable))
     (fmtFVal 1 (getField bs .metal_recuperable)) (fmtFVal 1 (deltaField .metal_recuperable cs bs))]

/-- The complete comparison report text: each line is written with a
terminating newline. -/
noncomputable def comparisonReport (cs bs : Stats) : String :=
  String.join ((comparisonReportLines cs bs).map (fun line => line ++ "\n"))

/-- The single-column dataset `[{AU_GPT: 1.0}, {AU_GPT: 2.0}, {AU_GPT: 3.0}]`. -/
def dfExample : DataFrame :=
  ⟨[("AU_GPT", [.num 1, .num 2, .num 3])]⟩

/-- The statistics record expected for `dfExample` over `AU_GPT`. -/
noncomputable def statsExample : Stats :=
  { volume := 1275000
    tonnage := 3442500
    densite := 27 / 10
    teneur_moyenne := some 2
    teneur_min := some 1
    teneur_max := some 3
    ecart_type := some 1
    metal_contenu := some 6885
    recuperation := 91
    metal_recuperable := some (626535 / 100) }

/-- Evaluation of `calculate_statistics` on `dfExample` (shared by
several claims below). -/
lemma calcExampleEval :
    calculate_statistics (some dfExample) "AU_GPT" = some statsExample := by
  have key : calculate_statistics (some dfExample) "AU_GPT" = some
      { volume := 1275000
        tonnage := 3442500
        densite := 27 / 10
        teneur_moyenne := listMean [1, 2, 3]
        teneur_min := ([1, 2, 3] : List ℚ).min?
        teneur_max := ([1, 2, 3] : List ℚ).max?
        ecart_type := (sampleVarQ [1, 2, 3]).map Real.sqrt
        metal_contenu := (listMean [1, 2, 3]).map (fun m => 3442500 * m / 1000)
        recuperation := 91
        metal_recuperable := ((listMean [1, 2, 3]).map (fun m => 3442500 * m / 1000)).map
          (fun mc => mc * 91 / 100) } := rfl
  rw [key]
  have h1 : listMean [1, 2, 3] = some 2 := by
    rw [listMean, if_neg (by decide)]
    norm_num
  have h2 : ([1, 2, 3] : List ℚ).min? = some 1 := by decide
  have h3 : ([1, 2, 3] : List ℚ).max? = some 3 := by decide
  have h4 : sampleVarQ [1, 2, 3] = some 1 := by
    rw [sampleVarQ, if_pos (by decide)]
    norm_num
  rw [h1, h2, h3, h4]
  norm_num [statsExample, Stats.mk.injEq, Real.sqrt_one]

/-- Claim C1: on the dataset whose grade column `AU_GPT` holds exactly
1.0, 2.0, 3.0, `calculate_statistics` returns mean grade 2.0, minimum
1.0, maximum 3.0, sample standard deviation 1.0, tonnage 3442500,
recovery 91.0, contained metal 6885.0 and recoverable metal 6265.35
(together with the non-composite volume and the fixed density). -/
theorem calculate_statistics_example :
    calculate_statistics (some dfExample) "AU_GPT" = some statsExample ∧
    statsExample.teneur_moyenne = some 2 ∧
    statsExample.teneur_min = some 1 ∧
    statsExample.teneur_max = some 3 ∧
    statsExample.ecart_type = some 1 ∧
    statsExample.tonnage = 3442500 ∧
    statsExample.recuperation = 91 ∧
    statsExample.metal_contenu = some 6885 ∧
    statsExample.metal_recuperable = some (626535 / 100) :=
  ⟨calcExampleEval, rfl, rfl, rfl, rfl, rfl, rfl, rfl, rfl⟩

/-- Claim C2: for every dataset and every grade-column name that is not
among the dataset's columns, `calculate_statistics` returns no record
(`none`) rather than a record with undefined field values. -/
theorem calculate_statistics_missing_column (df : DataFrame) (g : String)
    (h : g ∉ df.columns) :
    calculate_statistics (some df) g = none := by
  simp only [calculate_statistics]
  rw [if_neg h]

/-- Witness for C2 at the concrete dataset `dfExample` and the absent
column name `GRADE`. -/
theorem calculate_statistics_missing_column_witness :
    "GRADE" ∉ dfExample.columns ∧
    calculate_statistics (some dfExample) "GRADE" = none :=
  ⟨by decide, calculate_statistics_missing_column dfExample "GRADE" (by decide)⟩

/-- Claim C4: for every dataset and valid grade column, the volume,
tonnage, density and recovery fields of the returned record are fixed
constants selected solely by whether the grade-column name contains the
substring `composite` (volume 1250000 / tonnage 3375000 / recovery 92.5
when it does, volume 1275000 / tonnage 3442500 / recovery 91.0
otherwise, density 2.7 in both cases); none depends on the dataset. -/
theorem calculate_statistics_constants (df : DataFrame) (g : String) (s : Stats)
    (h : calculate_statistics (some df) g = some s) :
    s.densite = 27 / 10 ∧
    (containsSubstr "composite" g = true →
      s.volume = 1250000 ∧ s.tonnage = 3375000 ∧ s.recuperation = 925 / 10) ∧
    (containsSubstr "composite" g = false →
      s.volume = 1275000 ∧ s.tonnage = 3442500 ∧ s.recuperation = 91) := by
  simp only [calculate_statistics] at h
  by_cases hc : g ∈ df.columns
  · rw [if_pos hc] at h
    have hs := (Option.some.inj h).symm
    subst hs
    by_cases hcc : containsSubstr "composite" g <;> simp [hcc]
  · rw [if_neg hc] at h
    exact absurd h (by simp)

/-- Witness for C4 on `dfExample` over the non-composite column
`AU_GPT`. -/
theorem calculate_statistics_constants_witness :
    statsExample.densite = 27 / 10 ∧ statsExample.volume = 1275000 ∧
    statsExample.tonnage = 3442500 ∧ statsExample.recuperation = 91 := by
  obtain ⟨hd, -, hnc⟩ :=
    calculate_statistics_constants dfExample "AU_GPT" statsExample calcExampleEval
  obtain ⟨h1, h2, h3⟩ := hnc (by decide)
  exact ⟨hd, h1, h2, h3⟩

/-- `List.find?` returns an element at some position all of whose
predecessors fail the predicate. -/
lemma find?_first {α : Type} (p : α → Bool) :
    ∀ (l : List α) (a : α), l.find? p = some a →
      ∃ i, ∃ hi : i < l.length, l.get ⟨i, hi⟩ = a ∧
        ∀ j, ∀ hj : j < i, p (l.get ⟨j, lt_trans hj hi⟩) = false := by
  intro l
  induction l with
  | nil => intro a h; simp at h
  | cons x xs ih =>
    intro a h
    rw [List.find?_cons] at h
    by_cases hp : p x
    · simp only [hp] at h
      refine ⟨0, by simp, by simpa using h, ?_⟩
      intro j hj
      omega
    · have hp' : p x = false := by simpa using hp
      simp only [hp'] at h
      obtain ⟨i, hi, hget, hbefore⟩ := ih a h
      refine ⟨i + 1, by simpa using Nat.succ_lt_succ hi, by simpa using hget, ?_⟩
      intro j hj
      match j with
      | 0 => simpa using hp
      | Nat.succ j' =>
        have hj' : j' < i := Nat.lt_of_succ_lt_succ hj
        simpa using hbefore j' hj'

/-- Claim C3: on a non-empty column list, the column-guess heuristic
returns the first column whose lowercased name contains one of the
role's keywords, and falls back to the list's first column when no
column matches; in particular the grade guess on `["foo", "bar"]` is
`"foo"`. -/
theorem guessColumn_spec (r : Role) (cols : List String) (hne : cols ≠ []) :
    (∃ c, guessColumn r cols = some c ∧ c ∈ cols ∧
      ((matchesRole r c = true ∧ ∃ i, ∃ hi : i < cols.length,
          cols.get ⟨i, hi⟩ = c ∧
          ∀ j, ∀ hj : j < i, matchesRole r (cols.get ⟨j, lt_trans hj hi⟩) = false)
       ∨ ((∀ x ∈ cols, matchesRole r x = false) ∧ cols.head? = some c))) ∧
    guessColumn Role.grade ["foo", "bar"] = some "foo" := by
  refine ⟨?_, by decide⟩
  match cols with
  | [] => exact absurd rfl hne
  | c :: t =>
    cases hfind : (c :: t).find? (matchesRole r) with
    | some a =>
      refine ⟨a, ?_, List.mem_of_find?_eq_some hfind, ?_⟩
      · simp [guessColumn, hfind]
      · exact Or.inl ⟨List.find?_some hfind, find?_first (matchesRole r) _ a hfind⟩
    | none =>
      refine ⟨c, ?_, List.mem_cons_self c t, ?_⟩
      · simp [guessColumn, hfind]
      · exact Or.inr ⟨fun x hx => by
          simpa using List.find?_eq_none.mp hfind x hx, rfl⟩

/-- Witness for C3: the fallback instance from the claim,
`mapper(["foo", "bar"], grade) = "foo"`. -/
theorem guessColumn_spec_witness :
    guessColumn Role.grade ["foo", "bar"] = some "foo" :=
  (guessColumn_spec Role.grade ["foo", "bar"] (by decide)).2

/-- `List.min?` returns a member below every member. -/
lemma min?_spec (l : List ℚ) (a : ℚ) (h : l.min? = some a) :
    a ∈ l ∧ ∀ b ∈ l, a ≤ b := by
  haveI : Std.Antisymm (fun (x y : ℚ) => x ≤ y) := ⟨fun h1 h2 => le_antisymm h1 h2⟩
  exact (List.min?_eq_some_iff (fun a => le_refl a) (fun a b => min_choice a b)
    (fun _ _ _ => le_min_iff)).mp h

/-- `List.max?` returns a member above every member. -/
lemma max?_spec (l : List ℚ) (a : ℚ) (h : l.max? = some a) :
    a ∈ l ∧ ∀ b ∈ l, b ≤ a := by
  haveI : Std.Antisymm (fun (x y : ℚ) => x ≤ y) := ⟨fun h1 h2 => le_antisymm h1 h2⟩
  exact (List.max?_eq_some_iff (fun a => le_refl a) (fun a b => max_choice a b)
    (fun _ _ _ => max_le_iff)).mp h

/-- The arithmetic mean of a non-empty list lies between its minimum
and its maximum. -/
lemma listMean_between (l : List ℚ) (hne : l ≠ []) (m mn mx : ℚ)
    (hm : listMean l = some m) (hmn : l.min? = some mn) (hmx : l.max? = some mx) :
    mn ≤ m ∧ m ≤ mx := by
  rw [listMean, if_neg hne] at hm
  obtain rfl : l.sum / (l.length : ℚ) = m := Option.some.inj hm
  have hlen : 0 < (l.length : ℚ) := by
    have : 0 < l.length := List.length_pos.mpr hne
    exact_mod_cast this
  have hub : l.sum ≤ (l.length : ℚ) * mx := by
    have := List.sum_le_card_nsmul l mx (max?_spec l mx hmx).2
    simpa [nsmul_eq_mul] using this
  have hlb : (l.length : ℚ) * mn ≤ l.sum := by
    have := List.card_nsmul_le_sum l mn (min?_spec l mn hmn).2
    simpa [nsmul_eq_mul] using this
  constructor
  · rw [le_div_iff₀ hlen]
    linarith
  · rw [div_le_iff₀ hlen]
    linarith

/-- Numeric coercion does not change the numeric values of a column. -/
lemma colNums_map_toNumeric (cells : List Cell) :
    colNums (cells.map toNumericCell) = colNums cells := by
  induction cells with
  | nil => rfl
  | cons c t ih => cases c <;> simp [colNums, toNumericCell] at ih ⊢ <;> exact ih

/-- Looking up the written column after `setCol`. -/
lemma find?_setCol (g : String) (vals : List Cell) (cols : List (String × List Cell)) :
    ((cols.map (fun nv => if nv.1 = g then (nv.1, vals) else nv)).find?
        (fun nv => nv.1 = g)).map Prod.snd =
      if g ∈ cols.map Prod.fst then some vals else none := by
  induction cols with
  | nil => simp
  | cons hd tl ih =>
    by_cases hh : hd.1 = g
    · simp [List.find?_cons, hh]
    · have hgh : ¬ g = hd.1 := fun e => hh e.symm
      rw [List.map_cons, if_neg hh, List.find?_cons]
      rw [show (decide (hd.1 = g)) = false from by simp [hh]]
      simpa only [List.map_cons, List.mem_cons, or_iff_right hgh] using ih

/-- The coerced dataframe's grade column is the coercion of the
original grade column (also when the column is absent: both empty). -/
lemma getColD_coerceGrade (df : DataFrame) (g : String) :
    (coerceGrade df g).getColD g = (df.getColD g).map toNumericCell := by
  unfold coerceGrade DataFrame.setCol DataFrame.getColD DataFrame.getCol
  rw [find?_setCol]
  by_cases hmem : g ∈ df.columns
  · rw [if_pos (by simpa [DataFrame.columns] using hmem)]
    rfl
  · rw [if_neg (by simpa [DataFrame.columns] using hmem)]
    have hnone : df.cols.find? (fun nv => nv.1 = g) = none := by
      rw [List.find?_eq_none]
      intro x hx
      simp only [decide_eq_true_eq]
      intro hcontr
      exact hmem (by simpa [DataFrame.columns, hcontr] using List.mem_map_of_mem Prod.fst hx)
    simp [DataFrame.getColD, DataFrame.getCol, hnone]

/-- Claim C6 (amended): for every dataset and grade column with at
least one numeric value, the record satisfies min ≤ mean ≤ max, and the
standard deviation is nonnegative whenever it is defined (it is NaN
when fewer than two numeric values are present). -/
theorem calculate_statistics_order (df : DataFrame) (g : String) (s : Stats)
    (h : calculate_statistics (some df) g = some s)
    (hne : colNums (df.getColD g) ≠ []) :
    ∃ mn m mx, s.teneur_min = some mn ∧ s.teneur_moyenne = some m ∧
      s.teneur_max = some mx ∧ mn ≤ m ∧ m ≤ mx ∧
      ∀ sd, s.ecart_type = some sd → 0 ≤ sd := by
  simp only [calculate_statistics] at h
  by_cases hc : g ∈ df.columns
  · rw [if_pos hc] at h
    have hs := (Option.some.inj h).symm
    subst hs
    have hEq : colNums ((coerceGrade df g).getColD g) = colNums (df.getColD g) := by
      rw [getColD_coerceGrade, colNums_map_toNumeric]
    have hEne : colNums ((coerceGrade df g).getColD g) ≠ [] := hEq ▸ hne
    obtain ⟨x, xs, hcons⟩ : ∃ x xs, colNums ((coerceGrade df g).getColD g) = x :: xs := by
      match hcase : colNums ((coerceGrade df g).getColD g) with
      | [] => exact absurd hcase hEne
      | y :: ys => exact ⟨y, ys, rfl⟩
    have hmn : (colNums ((coerceGrade df g).getColD g)).min? = some (xs.foldl min x) := by
      rw [hcons]; rfl
    have hmx : (colNums ((coerceGrade df g).getColD g)).max? = some (xs.foldl max x) := by
      rw [hcons]; rfl
    have hm : listMean (colNums ((coerceGrade df g).getColD g)) =
        some ((colNums ((coerceGrade df g).getColD g)).sum /
          ((colNums ((coerceGrade df g).getColD g)).length : ℚ)) := by
      rw [listMean, if_neg hEne]
    obtain ⟨h1, h2⟩ := listMean_between _ hEne _ _ _ hm hmn hmx
    refine ⟨xs.foldl min x, _, xs.foldl max x, hmn, hm, hmx, h1, h2, ?_⟩
    intro sd hsd
    obtain ⟨v, -, rfl⟩ := Option.map_eq_some'.mp hsd
    exact Real.sqrt_nonneg v
  · rw [if_neg hc] at h
    exact absurd h (by simp)

/-- The single-value dataset `[{G: 5.0}]`. -/
def dfSingle : DataFrame :=
  ⟨[("G", [.num 5])]⟩

/-- The statistics record for `dfSingle` over `G`: its standard
deviation is NaN (`none`). -/
noncomputable def statsSingle : Stats :=
  { volume := 1275000
    tonnage := 3442500
    densite := 27 / 10
    teneur_moyenne := some 5
    teneur_min := some 5
    teneur_max := some 5
    ecart_type := none
    metal_contenu := some (34425 / 2)
    recuperation := 91
    metal_recuperable := some (3132675 / 200) }

/-- Evaluation of `calculate_statistics` on `dfSingle`. -/
lemma calcSingleEval :
    calculate_statistics (some dfSingle) "G" = some statsSingle := by
  have key : calculate_statistics (some dfSingle) "G" = some
      { volume := 1275000
        tonnage := 3442500
        densite := 27 / 10
        teneur_moyenne := listMean [5]
        teneur_min := ([5] : List ℚ).min?
        teneur_max := ([5] : List ℚ).max?
        ecart_type := (sampleVarQ [5]).map Real.sqrt
        metal_contenu := (listMean [5]).map (fun m => 3442500 * m / 1000)
        recuperation := 91
        metal_recuperable := ((listMean [5]).map (fun m => 3442500 * m / 1000)).map
          (fun mc => mc * 91 / 100) } := rfl
  rw [key]
  have h1 : listMean [5] = some 5 := by
    rw [listMean, if_neg (by decide)]
    norm_num
  have h2 : ([5] : List ℚ).min? = some 5 := by decide
  have h3 : ([5] : List ℚ).max? = some 5 := by decide
  have h4 : sampleVarQ [5] = none := by
    rw [sampleVarQ, if_neg (by decide)]
  rw [h1, h2, h3, h4]
  norm_num [statsSingle, Stats.mk.injEq]

/-- Counterexample to claim C6 as stated: on a grade column holding the
single numeric value 5, the returned record's standard deviation is NaN
(`none`), so it does not satisfy "standard deviation ≥ 0" (in floats,
`nan >= 0` is false). -/
theorem calculate_statistics_order_counterexample :
    colNums (dfSingle.getColD "G") ≠ [] ∧
    calculate_statistics (some dfSingle) "G" = some statsSingle ∧
    statsSingle.ecart_type = none ∧
    ¬ (∃ sd : ℝ, statsSingle.ecart_type = some sd ∧ 0 ≤ sd) := by
  refine ⟨by decide, calcSingleEval, rfl, ?_⟩
  rintro ⟨sd, hsd, -⟩
  simp [statsSingle] at hsd

/-- Witness for the amended C6 on `dfExample`. -/
theorem calculate_statistics_order_witness :
    ∃ mn m mx, statsExample.teneur_min = some mn ∧
      statsExample.teneur_moyenne = some m ∧
      statsExample.teneur_max = some mx ∧ mn ≤ m ∧ m ≤ mx ∧
      ∀ sd, statsExample.ecart_type = some sd → 0 ≤ sd :=
  calculate_statistics_order dfExample "AU_GPT" statsExample calcExampleEval (by decide)

/-- `setCol` leaves the column-name list unchanged. -/
lemma columns_setCol (df : DataFrame) (g : String) (vals : List Cell) :
    (df.setCol g vals).columns = df.columns := by
  unfold DataFrame.setCol DataFrame.columns
  rw [List.map_map]
  exact List.map_congr_left fun a _ => by by_cases h : a.1 = g <;> simp [h]

/-- Searching for a column other than the written one is unaffected by
`setCol`. -/
lemma find?_setCol_ne (g c : String) (hne : c ≠ g) (vals : List Cell) :
    ∀ cols : List (String × List Cell),
      (cols.map (fun nv => if nv.1 = g then (nv.1, vals) else nv)).find?
        (fun nv => nv.1 = c) = cols.find? (fun nv => nv.1 = c) := by
  intro cols
  induction cols with
  | nil => rfl
  | cons hd tl ih =>
    by_cases hh : hd.1 = g
    · have hpc : ¬ hd.1 = c := by
        rw [hh]
        exact fun e => hne e.symm
      rw [List.map_cons, if_pos hh]
      rw [List.find?_cons_of_neg _ (by simp [hpc])]
      rw [List.find?_cons_of_neg _ (by simp [hpc])]
      exact ih
    · rw [List.map_cons, if_neg hh]
      by_cases hpc : hd.1 = c
      · rw [List.find?_cons_of_pos _ (by simp [hpc])]
        rw [List.find?_cons_of_pos _ (by simp [hpc])]
      · rw [List.find?_cons_of_neg _ (by simp [hpc])]
        rw [List.find?_cons_of_neg _ (by simp [hpc])]
        exact ih

/-- Claim C9: the statistics computation's only effect on the input
dataset is the numeric coercion of the grade column (`coerceGrade` is
the in-place mutation `calculate_statistics` performs): the column list
is unchanged, every other column keeps its raw cells, and the grade
column becomes its own numeric coercion. -/
theorem calculate_statistics_frame (df : DataFrame) (g c : String)
    (_hmem : c ∈ df.columns) (hne : c ≠ g) :
    (coerceGrade df g).columns = df.columns ∧
    (coerceGrade df g).getCol c = df.getCol c ∧
    (coerceGrade df g).getColD g = (df.getColD g).map toNumericCell := by
  refine ⟨columns_setCol df g _, ?_, getColD_coerceGrade df g⟩
  unfold coerceGrade DataFrame.setCol DataFrame.getCol
  rw [find?_setCol_ne g c hne _ df.cols]

/-- The two-column dataset used to witness C9: a coordinate column and
a grade column containing a non-numeric cell. -/
def dfMulti : DataFrame :=
  ⟨[("EAST", [.num 7, .nonNum "a"]), ("AU_GPT", [.nonNum "x", .num 2])]⟩

/-- Witness for C9 on `dfMulti`: coercing `AU_GPT` leaves `EAST`
untouched (its non-numeric cell included) and coerces `AU_GPT`. -/
theorem calculate_statistics_frame_witness :
    "EAST" ∈ dfMulti.columns ∧ "EAST" ≠ "AU_GPT" ∧
    (coerceGrade dfMulti "AU_GPT").columns = dfMulti.columns ∧
    (coerceGrade dfMulti "AU_GPT").getCol "EAST" = dfMulti.getCol "EAST" ∧
    (coerceGrade dfMulti "AU_GPT").getColD "AU_GPT" =
      (dfMulti.getColD "AU_GPT").map toNumericCell := by
  have h := calculate_statistics_frame dfMulti "AU_GPT" "EAST" (by decide) (by decide)
  exact ⟨by decide, by decide, h.1, h.2.1, h.2.2⟩

/-- A sample over valid indices has exactly one row per index. -/
lemma sampleRows_length {α : Type} (rows : List α) (idxs : List ℕ)
    (hval : ∀ i ∈ idxs, i < rows.length) :
    (sampleRows rows idxs).length = idxs.length := by
  induction idxs with
  | nil => rfl
  | cons i t ih =>
    have hi : i < rows.length := hval i (List.mem_cons_self i t)
    have ht : ∀ j ∈ t, j < rows.length := fun j hj => hval j (List.mem_cons_of_mem i hj)
    simp [sampleRows, List.filterMap_cons, List.getElem?_eq_getElem hi, ih ht]
    intro a ha
    rw [List.getElem?_eq_getElem (ht a ha)]
    rfl

/-- Every sampled row comes from the original row list. -/
lemma sampleRows_subset {α : Type} (rows : List α) (idxs : List ℕ) :
    ∀ r ∈ sampleRows rows idxs, r ∈ rows := by
  intro r hr
  obtain ⟨i, -, hi⟩ := List.mem_filterMap.mp hr
  exact List.getElem?_mem hi

/-- Claim C7: the 3D sampling step returns the dataset unchanged when
its row count is at most the bound `N`, and otherwise — for any draw of
`min N len` distinct valid row indices, the contract of
`DataFrame.sample` — returns exactly `N` rows, each taken from the
original dataset, selected at the pairwise-distinct drawn indices. -/
theorem create_3d_sample_spec {α : Type} (N : ℕ) (rows : List α) (idxs : List ℕ) :
    (rows.length ≤ N → create_3d_sample N rows idxs = rows) ∧
    (N < rows.length → idxs.Nodup → (∀ i ∈ idxs, i < rows.length) →
      idxs.length = min N rows.length →
      (create_3d_sample N rows idxs).length = N ∧
      (∀ r ∈ create_3d_sample N rows idxs, r ∈ rows) ∧
      create_3d_sample N rows idxs = idxs.filterMap (fun i => rows[i]?)) := by
  constructor
  · intro hle
    simp only [create_3d_sample]
    rw [if_neg]
    rw [min_eq_right hle]
    exact lt_irrefl _
  · intro hlt _hnd hval hlen
    simp only [create_3d_sample]
    have hmin : min N rows.length = N := min_eq_left (le_of_lt hlt)
    rw [if_pos (by rw [hmin]; exact hlt)]
    refine ⟨?_, sampleRows_subset rows idxs, rfl⟩
    rw [sampleRows_length rows idxs hval, hlen, hmin]

/-- Witness for C7: the identity branch with `N = 5` and the sampling
branch with `N = 2` on a three-row dataset. -/
theorem create_3d_sample_spec_witness :
    create_3d_sample 5 [10, 20, 30] [0, 1, 2] = [10, 20, 30] ∧
    (create_3d_sample 2 [10, 20, 30] [2, 0]).length = 2 ∧
    ∀ r ∈ create_3d_sample 2 [10, 20, 30] [2, 0], r ∈ [10, 20, 30] := by
  refine ⟨(create_3d_sample_spec 5 [10, 20, 30] [0, 1, 2]).1 (by decide), ?_, ?_⟩
  · exact ((create_3d_sample_spec 2 [10, 20, 30] [2, 0]).2
      (by decide) (by decide) (by decide) (by decide)).1
  · exact ((create_3d_sample_spec 2 [10, 20, 30] [2, 0]).2
      (by decide) (by decide) (by decide) (by decide)).2.1

/-- The all-zero two-row dataset `[{AU_GPT: 0.0}, {AU_GPT: 0.0}]`. -/
def dfZeros : DataFrame :=
  ⟨[("AU_GPT", [.num 0, .num 0])]⟩

/-- The statistics record for `dfZeros` over `AU_GPT`: every grade
aggregate is zero. -/
noncomputable def statsZeros : Stats :=
  { volume := 1275000
    tonnage := 3442500
    densite := 27 / 10
    teneur_moyenne := some 0
    teneur_min := some 0
    teneur_max := some 0
    ecart_type := some 0
    metal_contenu := some 0
    recuperation := 91
    metal_recuperable := some 0 }

/-- Evaluation of `calculate_statistics` on `dfZeros`. -/
lemma calcZerosEval :
    calculate_statistics (some dfZeros) "AU_GPT" = some statsZeros := by
  have key : calculate_statistics (some dfZeros) "AU_GPT" = some
      { volume := 1275000
        tonnage := 3442500
        densite := 27 / 10
        teneur_moyenne := listMean [0, 0]
        teneur_min := ([0, 0] : List ℚ).min?
        teneur_max := ([0, 0] : List ℚ).max?
        ecart_type := (sampleVarQ [0, 0]).map Real.sqrt
        metal_contenu := (listMean [0, 0]).map (fun m => 3442500 * m / 1000)
        recuperation := 91
        metal_recuperable := ((listMean [0, 0]).map (fun m => 3442500 * m / 1000)).map
          (fun mc => mc * 91 / 100) } := rfl
  rw [key]
  have h1 : listMean [0, 0] = some 0 := by
    rw [listMean, if_neg (by decide)]
    norm_num
  have h2 : ([0, 0] : List ℚ).min? = some 0 := by decide
  have h3 : ([0, 0] : List ℚ).max? = some 0 := by decide
  have h4 : sampleVarQ [0, 0] = some 0 := by
    rw [sampleVarQ, if_pos (by decide)]
    norm_num
  rw [h1, h2, h3, h4]
  norm_num [statsZeros, Stats.mk.injEq, Real.sqrt_zero]

/-- Claim C5 (amended): every per-field delta follows the formula
`(second/first − 1) × 100` under float semantics and never raises: a
NaN in either field gives a NaN delta, a zero first field gives a NaN
delta only when the second field is also zero, and gives a signed
infinite delta when the second field is a nonzero finite value. -/
theorem deltaField_spec (f : StatField) (cs bs : Stats) :
    (∀ a b, getField cs f = .fin a → a ≠ 0 → getField bs f = .fin b →
      deltaField f cs bs = .fin ((b / a - 1) * 100)) ∧
    (getField cs f = .nan → deltaField f cs bs = .nan) ∧
    (getField bs f = .nan → deltaField f cs bs = .nan) ∧
    (getField cs f = .fin 0 → getField bs f = .fin 0 → deltaField f cs bs = .nan) ∧
    (∀ b, getField cs f = .fin 0 → getField bs f = .fin b → 0 < b →
      deltaField f cs bs = .inf) ∧
    (∀ b, getField cs f = .fin 0 → getField bs f = .fin b → b < 0 →
      deltaField f cs bs = .neginf) := by
  refine ⟨?_, ?_, ?_, ?_, ?_, ?_⟩
  · intro a b ha hane hb
    rw [deltaField, deltaPct, ha, hb]
    norm_num [fdiv, fsub, fmul, hane]
  · intro h
    rw [deltaField, deltaPct, h]
    cases hbs : getField bs f <;> simp [fdiv, fsub, fmul]
  · intro h
    rw [deltaField, deltaPct, h]
    simp [fdiv, fsub, fmul]
  · intro h0 hb0
    rw [deltaField, deltaPct, h0, hb0]
    norm_num [fdiv, fsub, fmul]
  · intro b h0 hb hbpos
    rw [deltaField, deltaPct, h0, hb]
    norm_num [fdiv, fsub, fmul, hbpos, hbpos.ne']
  · intro b h0 hb hbneg
    rw [deltaField, deltaPct, h0, hb]
    norm_num [fdiv, fsub, fmul, hbneg, hbneg.ne, not_lt.mpr hbneg.le]

/-- Counterexample to claim C5 as stated: between two reachable records
— the all-zero composite record and the `dfExample` block record — the
minimum-grade delta has a zero first field and the nonzero second field
1, and the computed delta is `+inf`, not NaN. -/
theorem deltaField_zero_counterexample :
    calculate_statistics (some dfZeros) "AU_GPT" = some statsZeros ∧
    calculate_statistics (some dfExample) "AU_GPT" = some statsExample ∧
    getField statsZeros StatField.teneur_min = FVal.fin 0 ∧
    getField statsExample StatField.teneur_min = FVal.fin 1 ∧
    deltaField StatField.teneur_min statsZeros statsExample = FVal.inf ∧
    FVal.inf ≠ FVal.nan := by
  refine ⟨calcZerosEval, calcExampleEval, ?_, ?_, ?_, fun h => FVal.noConfusion h⟩
  · norm_num [getField, statsZeros]
  · norm_num [getField, statsExample]
  · rw [deltaField, deltaPct]
    norm_num [getField, statsZeros, statsExample, fdiv, fsub, fmul]

/-- Witness for the amended C5: the infinite delta and the NaN delta at
concrete reachable records. -/
theorem deltaField_spec_witness :
    deltaField StatField.teneur_min statsZeros statsExample = FVal.inf ∧
    deltaField StatField.teneur_moyenne statsZeros statsZeros = FVal.nan := by
  constructor
  · exact (deltaField_spec StatField.teneur_min statsZeros statsExample).2.2.2.2.1 1
      (by norm_num [getField, statsZeros]) (by norm_num [getField, statsExample]) one_pos
  · exact (deltaField_spec StatField.teneur_moyenne statsZeros statsZeros).2.2.2.1
      (by norm_num [getField, statsZeros]) (by norm_num [getField, statsZeros])

/-- Claim C10: `get_diff_class` returns `positive` exactly when the
delta is greater than zero, `negative` exactly when it is less than
zero, and `neutral` in every other case — in particular a NaN delta is
classified `neutral`, indistinguishable from an exact zero. -/
theorem get_diff_class_spec (d : FVal) :
    (get_diff_class d = "positive" ↔ fgtZero d) ∧
    (get_diff_class d = "negative" ↔ fltZero d) ∧
    (get_diff_class d = "neutral" ↔ ¬ fgtZero d ∧ ¬ fltZero d) ∧
    get_diff_class FVal.nan = "neutral" := by
  have hpn : ("positive" : String) ≠ "negative" := by decide
  have hpu : ("positive" : String) ≠ "neutral" := by decide
  have hnu : ("negative" : String) ≠ "neutral" := by decide
  have hnan : get_diff_class FVal.nan = "neutral" := by
    rw [get_diff_class, if_neg (by simp [fgtZero]), if_neg (by simp [fltZero])]
  by_cases hg : fgtZero d
  · have hnl : ¬ fltZero d := by
      cases d with
      | fin x =>
        have hx : (0 : ℝ) < x := by simpa [fgtZero] using hg
        simp only [fltZero]
        linarith
      | inf => simp [fltZero]
      | neginf => simp [fgtZero] at hg
      | nan => simp [fgtZero] at hg
    have hcl : get_diff_class d = "positive" := by rw [get_diff_class, if_pos hg]
    rw [hcl]
    exact ⟨⟨fun _ => hg, fun _ => rfl⟩, ⟨fun h => absurd h hpn, fun h => absurd h hnl⟩,
      ⟨fun h => absurd h hpu, fun h => absurd hg h.1⟩, hnan⟩
  · by_cases hl : fltZero d
    · have hcl : get_diff_class d = "negative" := by
        rw [get_diff_class, if_neg hg, if_pos hl]
      rw [hcl]
      exact ⟨⟨fun h => absurd h.symm hpn, fun h => absurd h hg⟩, ⟨fun _ => hl, fun _ => rfl⟩,
        ⟨fun h => absurd h hnu, fun h => absurd hl h.2⟩, hnan⟩
    · have hcl : get_diff_class d = "neutral" := by
        rw [get_diff_class, if_neg hg, if_neg hl]
      rw [hcl]
      exact ⟨⟨fun h => absurd h.symm hpu, fun h => absurd h hg⟩,
        ⟨fun h => absurd h.symm hnu, fun h => absurd h hl⟩,
        ⟨fun _ => ⟨hg, hl⟩, fun _ => rfl⟩, hnan⟩

/-- The ten metric labels of the comparison report, in row order:
total volume, estimated tonnage, average density, mean grade, minimum
grade, maximum grade, standard deviation, contained metal, estimated
recovery, recoverable metal. -/
def reportLabels : List String :=
  ["Volume total (m³)", "Tonnage estimé (tonnes)", "Densité moyenne (t/m³)",
   "Teneur moyenne (g/t)", "Teneur minimum (g/t)", "Teneur maximum (g/t)",
   "Écart-type (g/t)", "Métal contenu (kg)", "Récupération estimée (%)",
   "Métal récupérable (kg)"]

/-- Claim C8 (amended): for every pair of statistics records the report
is a comma-separated text whose first line is the fixed (French) header
row `Métrique,Composite 3D,Bloc Modèle,Différence (%)`, followed by
exactly ten metric rows in the order of `reportLabels`. -/
theorem comparisonReportLines_spec (cs bs : Stats) :
    (comparisonReportLines cs bs).length = 11 ∧
    (comparisonReportLines cs bs).head? =
      some "Métrique,Composite 3D,Bloc Modèle,Différence (%)" ∧
    ∀ i : Fin 10, ∃ lbl a b d, reportLabels[(i : ℕ)]? = some lbl ∧
      (comparisonReportLines cs bs)[(i : ℕ) + 1]? = some (rowLine lbl a b d) := by
  refine ⟨rfl, rfl, ?_⟩
  intro i
  fin_cases i <;> exact ⟨_, _, _, _, rfl, rfl⟩

/-- Counterexample to claim C8 as stated: the header row the code
writes is the French `Métrique,Composite 3D,Bloc Modèle,Différence (%)`,
not the claimed `Metric,Composite 3D,Block Model,Difference (%)`. -/
theorem comparisonReportLines_header_counterexample :
    (comparisonReportLines statsExample statsExample).head? =
      some "Métrique,Composite 3D,Bloc Modèle,Différence (%)" ∧
    "Métrique,Composite 3D,Bloc Modèle,Différence (%)" ≠
      "Metric,Composite 3D,Block Model,Difference (%)" :=
  ⟨rfl, by decide⟩
